import Mathlib

/-!
Heat-map scales, legend and tooltip of `src/index.js`.

A shallow embedding of the data-to-picture arithmetic of the heat-map script.
JavaScript numbers are modelled by their exact rational value (`ℚ`); the value
`undefined` (and the `NaN` it turns into under arithmetic) is modelled by `none`.
The scales and the legend swatches are evaluated in exact arithmetic.  The legend
axis (`index.js:148-150`) and the printed temperatures are evaluated in IEEE 754
binary64 arithmetic (`binary64` rounds each result), because there the rounding
decides how many ticks are drawn and which digit is printed.  The d3
helpers the script imports (`min`, `max`, `range`, `scaleLinear`,
`scaleSequential`) are library code; each is modelled after the behaviour of the
d3 release line the script is written for (the two-argument `(event, datum)`
listener of `index.js:116` is the d3 v6+ interface).
-/

namespace HeatMap

/-! ## Data model -/

/-- One element of `monthlyVariance`: the fields read at `index.js:30`. -/
structure AnomalyRecord where
  year : ℤ
  month : ℤ
  variance : ℚ
  deriving DecidableEq

/-- The fetched object destructured at `index.js:96` and `index.js:123`.  Its numbers
are the values the JSON parser delivers. -/
structure Dataset where
  baseTemperature : ℚ
  monthlyVariance : List AnomalyRecord

/-! ## Module constants (`index.js:15-18`) -/

def plotWidth : ℚ := 1000
def plotHeight : ℚ := 500
def plotPadding : ℚ := 60
def plotBottomPadding : ℚ := 100

/-! ## d3 helpers -/

/-- Model of d3 `interpolateNumber(a, b)`: the map `t ↦ a * (1 - t) + b * t`. -/
def interpolateNumber (a b t : ℚ) : ℚ := a * (1 - t) + b * t

/-- Model of d3 `normalize(a, b)` used by continuous scales: `x ↦ (x - a) / (b - a)`,
and the constant `0.5` when the two ends coincide. -/
def normalize (a b x : ℚ) : ℚ := if b - a = 0 then 1 / 2 else (x - a) / (b - a)

/-- Model of d3 `scaleLinear().domain([d0, d1]).range([r0, r1])` applied to `x`
(the `bimap` of d3-scale, without clamping). -/
def scaleLinear (d0 d1 r0 r1 x : ℚ) : ℚ :=
  if d1 < d0 then interpolateNumber r1 r0 (normalize d1 d0 x)
  else interpolateNumber r0 r1 (normalize d0 d1 x)

/-- Model of d3 `min(values)`: a left-to-right scan keeping the smallest value seen;
`none` (JavaScript `undefined`) on an empty list. -/
def d3min (xs : List ℚ) : Option ℚ :=
  xs.foldl (fun acc v =>
    match acc with
    | none => some v
    | some m => if v < m then some v else some m) none

/-- Model of d3 `max(values)`: a left-to-right scan keeping the largest value seen;
`none` (JavaScript `undefined`) on an empty list. -/
def d3max (xs : List ℚ) : Option ℚ :=
  xs.foldl (fun acc v =>
    match acc with
    | none => some v
    | some m => if m < v then some v else some m) none

/-- Model of d3 `range(start, stop, step)`: `n = max(0, ceil((stop - start) / step))`
values `start + i * step`.  A zero step makes the quotient infinite or `NaN`, which
`| 0` turns into a count of `0`.  (The `| 0` wrap-around is not modelled; it is the
identity on every count below `2^31`.) -/
def d3range (start stop step : ℚ) : List ℚ :=
  if step = 0 then []
  else (List.range (max 0 ⌈(stop - start) / step⌉).toNat).map
    (fun (i : ℕ) => start + (i : ℚ) * step)

/-- Parameter handed to the interpolator by d3 `scaleSequential(..).domain([x0, x1])`:
`0.5` when `k10 = 0` (coinciding ends), otherwise `(x - x0) * k10` with
`k10 = 1 / (x1 - x0)`; `none` stands for the `NaN` obtained from an undefined end. -/
def sequentialParam (x0 x1 : Option ℚ) (x : ℚ) : Option ℚ :=
  match x0, x1 with
  | some t0, some t1 => some (if t0 = t1 then 1 / 2 else (x - t0) * (1 / (t1 - t0)))
  | _, _ => none

/-- Model of d3 `scaleSequential(interpolator).domain([x0, x1])` applied to `x`. -/
def scaleSequential {α : Type} (interpolator : ℚ → α) (x0 x1 : Option ℚ) (x : ℚ) :
    Option α :=
  (sequentialParam x0 x1 x).map interpolator

/-! ## Double-precision arithmetic -/

/-- Nearest integer to `num / den`, a tie going to the even neighbour. -/
def roundHalfEven (num den : ℕ) : ℕ :=
  let n := num / den
  let r := num % den
  if 2 * r < den then n
  else if den < 2 * r then n + 1
  else if n % 2 = 0 then n else n + 1

/-- Halving count behind `floorLog2`; `fuel` bounds the number of halvings. -/
def floorLog2Aux : ℕ → ℕ → ℕ
  | 0, _ => 0
  | fuel + 1, n => if n < 2 then 0 else floorLog2Aux fuel (n / 2) + 1

/-- The integer `floor (log2 n)` for `n >= 1` (and `0` for `n = 0`). -/
def floorLog2 (n : ℕ) : ℕ := floorLog2Aux n n

/-- Exponent of the binary64 spacing at the positive rational `p / q`: `e - 52` with
`e = max (floor (log2 (p / q))) (-1022)`, the lower bound being the subnormal range. -/
def quantumExponent (p q : ℕ) : ℤ :=
  let d : ℤ := (floorLog2 p : ℤ) - (floorLog2 q : ℤ)
  let e : ℤ := if q * 2 ^ d.toNat ≤ p * 2 ^ (-d).toNat then d else d - 1
  max e (-1022) - 52

/-- Rounding of a rational to the nearest IEEE 754 binary64 number, ties to even, as
every JavaScript arithmetic operation does with its exact result.  Overflow to an
infinity (from `2^1024 - 2^970` on) and the sign of zero are not modelled. -/
def binary64 (x : ℚ) : ℚ :=
  let p : ℕ := x.num.natAbs
  let q : ℕ := x.den
  if p = 0 then 0
  else
    let s : ℤ := quantumExponent p q
    let n : ℕ := roundHalfEven (p * 2 ^ (-s).toNat) (q * 2 ^ s.toNat)
    let v : ℚ := (n : ℚ) * 2 ^ s
    if x < 0 then -v else v

/-- JavaScript `x + y` on doubles. -/
def addDouble (x y : ℚ) : ℚ := binary64 (x + y)

/-- JavaScript `x - y` on doubles. -/
def subDouble (x y : ℚ) : ℚ := binary64 (x - y)

/-- JavaScript `x * y` on doubles. -/
def mulDouble (x y : ℚ) : ℚ := binary64 (x * y)

/-- JavaScript `x / y` on doubles, for `y` other than zero. -/
def divDouble (x y : ℚ) : ℚ := binary64 (x / y)

/-- Model of d3 `interpolateNumber(a, b)` on doubles: `t ↦ a * (1 - t) + b * t`. -/
def interpolateNumberDouble (a b t : ℚ) : ℚ :=
  addDouble (mulDouble a (subDouble 1 t)) (mulDouble b t)

/-- Model of d3 `range(start, stop, step)` on doubles:
`n = max(0, ceil((stop - start) / step)) | 0` values `start + i * step`; a zero step
gives a count of `0`. -/
def d3rangeDouble (start stop step : ℚ) : List ℚ :=
  if step = 0 then []
  else (List.range (max 0 ⌈divDouble (subDouble stop start) step⌉).toNat).map
    (fun (i : ℕ) => addDouble start (mulDouble (i : ℚ) step))

/-- Parameter handed to the interpolator by d3 `scaleSequential(..).domain([t0, t1])`
on doubles: `0.5` when `k10 = 0`, otherwise `(x - t0) * k10` with `k10 = 1 / (t1 - t0)`. -/
def sequentialParamDouble (t0 t1 x : ℚ) : ℚ :=
  if t0 = t1 then 1 / 2 else mulDouble (subDouble x t0) (divDouble 1 (subDouble t1 t0))

/-! ## Scale builders (`index.js:53-70`) -/

/-- Errors a render pass can raise. -/
inductive JsError where
  | typeError (msg : String)
  deriving DecidableEq, Repr

/-- Embedding of `data[i].year`: reading a property of `undefined` throws. -/
def yearAt (data : List AnomalyRecord) (i : ℕ) : Except JsError ℤ :=
  match data[i]? with
  | some r => .ok r.year
  | none => .error (.typeError "Cannot read properties of undefined (reading year)")

/-- Embedding of `getXScale` (`index.js:53-57`). -/
def getXScale (data : List AnomalyRecord) : Except JsError (ℚ → ℚ) := do
  let first ← yearAt data 0
  let last ← yearAt data (data.length - 1)
  pure (scaleLinear (first : ℚ) ((last : ℚ) + 1) plotPadding (plotWidth - plotPadding))

/-- Embedding of `getYScale` (`index.js:59-63`). -/
def getYScale : ℚ → ℚ :=
  scaleLinear 1 13 plotPadding (plotHeight - plotBottomPadding)

/-- The list the accessor `(data) => data.variance` ranges over. -/
def variances (data : List AnomalyRecord) : List ℚ := data.map (·.variance)

/-- Embedding of `getColorScale` (`index.js:65-70`); `interpolateRdYlBu` is the palette,
kept abstract. -/
def getColorScale {α : Type} (interpolateRdYlBu : ℚ → α) (data : List AnomalyRecord) :
    ℚ → Option α :=
  let minDelta := d3min (variances data)
  let maxDelta := d3max (variances data)
  scaleSequential interpolateRdYlBu maxDelta minDelta

/-- The cell height of `renderHeatMap` (`index.js:97`). -/
def cellHeight : ℚ := (plotHeight - plotPadding - plotBottomPadding) / 12

/-! ## Text helpers -/

/-- English month names, as `toLocaleString` with the option `month: long` prints them. -/
def monthNames : List String :=
  ["January", "February", "March", "April", "May", "June", "July", "August",
   "September", "October", "November", "December"]

/-- Embedding of `new Date(2000, monthIndex, 1).toLocaleString(.., month: long)`: the
`Date` constructor takes a zero-based month index and carries overflow into the year, so
the month shown is `monthIndex mod 12`. -/
def monthLong (monthIndex : ℤ) : String :=
  monthNames.getD (monthIndex % 12).toNat ""

/-- Embedding of `x.toFixed(1)` for a double of exact value `x`, `|x| < 10^21`: the sign,
then the integer `n` nearest to `10 * |x|` (the larger one on a tie) printed with one
digit after the point. -/
def toFixed1 (x : ℚ) : String :=
  let n : ℕ := ⌊|x| * 10 + 1 / 2⌋.toNat
  (if x < 0 then "-" else "") ++ toString (n / 10) ++ "." ++ toString (n % 10)

/-! ## Picture model -/

/-- A heat-map `rect` with the attributes set at `index.js:107-115`. -/
structure Cell (α : Type) where
  dataMonth : ℤ
  dataYear : ℤ
  dataTemp : ℚ
  height : ℚ
  width : ℚ
  x : ℚ
  y : ℚ
  fill : Option α

/-- A legend `rect` with the attributes set at `index.js:142-146`. -/
structure LegendRect (α : Type) where
  x : ℚ
  y : ℚ
  width : ℚ
  height : ℚ
  fill : Option α

/-- An appended `g` element: its id and its `translate` transform, when it has one. -/
structure Group where
  id : String
  translate : Option (ℚ × ℚ)
  deriving DecidableEq

/-- One axis tick: the tick value, the pixel offset the axis scale gives it, its text. -/
structure Tick where
  value : ℚ
  offset : Option ℚ
  label : String
  deriving DecidableEq

/-- The `#plot` element: its `viewBox`, the heat-map cells, the appended groups in
document order and the legend swatches. -/
structure Plot (α : Type) where
  viewBox : Option (ℚ × ℚ × ℚ × ℚ)
  cells : List (Cell α)
  groups : List Group
  legend : List (LegendRect α)

/-- The mount point before the script runs. -/
def Plot.empty (α : Type) : Plot α :=
  { viewBox := none, cells := [], groups := [], legend := [] }

/-- The `.tooltip` element after `handleMouseOver`. -/
structure Tooltip where
  year : ℤ
  monthName : String
  temperature : String
  top : ℚ
  left : ℚ
  dataYear : ℤ
  hidden : Bool
  deriving DecidableEq

/-! ## Rendering (`index.js:26-160`) -/

/-- Embedding of `setPlotSize` (`index.js:26-28`). -/
def setPlotSize {α : Type} (p : Plot α) : Plot α :=
  { p with viewBox := some (0, 0, plotWidth, plotHeight) }

/-- Embedding of `handleMouseOver` (`index.js:30-47`); `clientX`, `clientY` are the
pointer coordinates of the event. -/
def handleMouseOver (clientX clientY : ℚ) (r : AnomalyRecord) (base : ℚ) : Tooltip :=
  let offset : ℚ := 10
  { year := r.year
    monthName := monthLong r.month
    temperature := toFixed1 (addDouble base r.variance)
    top := clientY + offset
    left := clientX + offset
    dataYear := r.year
    hidden := false }

/-- Embedding of `renderXAxis` (`index.js:72-80`): the appended group.  Its ticks come
from d3 default tick generation and are not modelled. -/
def renderXAxis {α : Type} (p : Plot α) : Plot α :=
  { p with groups := p.groups ++
      [{ id := "x-axis", translate := some (0, plotHeight - plotBottomPadding) }] }

/-- The scale of `renderYAxis` (`index.js:83-85`). -/
def yAxisScale : ℚ → ℚ :=
  scaleLinear (-1 / 2) (23 / 2) 0 (plotHeight - plotPadding - plotBottomPadding)

/-- The ticks of the left axis (`index.js:86-88`).  For the domain `[-0.5, 11.5]` d3
default tick generation (ten ticks asked, step `1`) yields the values `0, 1, .., 11`. -/
def yAxisTicks : List Tick :=
  (List.range 12).map (fun (k : ℕ) =>
    { value := (k : ℚ), offset := some (yAxisScale (k : ℚ)), label := monthLong (Int.ofNat k) })

/-- Embedding of `renderYAxis` (`index.js:82-94`): the appended group. -/
def renderYAxis {α : Type} (p : Plot α) : Plot α :=
  { p with groups := p.groups ++
      [{ id := "y-axis", translate := some (plotPadding, plotPadding) }] }

/-- The cell drawn for one record (`index.js:107-115`). -/
def cellOf {α : Type} (base : ℚ) (xScale yScale : ℚ → ℚ) (colorScale : ℚ → Option α)
    (r : AnomalyRecord) : Cell α :=
  { dataMonth := r.month - 1
    dataYear := r.year
    dataTemp := base + r.variance
    height := cellHeight
    width := 4
    x := xScale (r.year : ℚ)
    y := yScale (r.month : ℚ)
    fill := colorScale r.variance }

/-- Embedding of `renderHeatMap` (`index.js:96-121`).  The data join enters one `rect`
for each datum beyond the `rect` elements already under `#plot`. -/
def renderHeatMap {α : Type} (interpolateRdYlBu : ℚ → α) (ds : Dataset) (p : Plot α) :
    Except JsError (Plot α) := do
  let base := ds.baseTemperature
  let data := ds.monthlyVariance
  let xScale ← getXScale data
  let yScale := getYScale
  let colorScale := getColorScale interpolateRdYlBu data
  let entering := data.drop (p.cells.length + p.legend.length)
  let p1 := { p with cells := p.cells ++ entering.map (cellOf base xScale yScale colorScale) }
  pure (renderYAxis (renderXAxis p1))

/-- Swatch size of the legend (`index.js:125`). -/
def cellSize : ℚ := 25

/-- Number of swatches the legend is laid out for (`index.js:132`). -/
def cellsCount : ℚ := 9

/-- The legend step (`index.js:133`). -/
def stepOfGrade (minDelta maxDelta : ℚ) : ℚ := (|minDelta| + maxDelta) / cellsCount

/-- The list `grades` (`index.js:134`); empty when `min`/`max` are undefined, since
`range` of `NaN` bounds has no element. -/
def legendGrades (data : List AnomalyRecord) : List ℚ :=
  match d3min (variances data), d3max (variances data) with
  | some minDelta, some maxDelta => d3range minDelta maxDelta (stepOfGrade minDelta maxDelta)
  | _, _ => []

/-- The colour scale `scaling` of `renderLegend` (`index.js:128-131`), as it is when the
swatches are filled. -/
def legendScaling {α : Type} (interpolateRdYlBu : ℚ → α) (data : List AnomalyRecord) :
    ℚ → Option α :=
  scaleSequential interpolateRdYlBu (d3max (variances data)) (d3min (variances data))

/-- The swatches appended at `index.js:137-146`: one per grade, indexed from `0`. -/
def legendRects {α : Type} (interpolateRdYlBu : ℚ → α) (data : List AnomalyRecord) :
    List (LegendRect α) :=
  (legendGrades data).enum.map (fun (ig : ℕ × ℚ) =>
    { x := plotPadding + cellSize * (ig.1 : ℚ)
      y := plotHeight - plotPadding
      width := cellSize
      height := cellSize
      fill := legendScaling interpolateRdYlBu data ig.2 })

/-- The legend step (`index.js:133`) as the doubles give it. -/
def stepOfGradeDouble (minDelta maxDelta : ℚ) : ℚ :=
  divDouble (addDouble |minDelta| maxDelta) cellsCount

/-- The scale handed to `axisBottom` (`index.js:148`), on doubles: `scaling` after
`range([cellSize * cellsCount, 0])` replaced its interpolator by the number
interpolator from `225` to `0`. -/
def legendAxisScale (data : List AnomalyRecord) (x : ℚ) : Option ℚ :=
  match d3min (variances data), d3max (variances data) with
  | some minDelta, some maxDelta =>
      some (interpolateNumberDouble (mulDouble cellSize cellsCount) 0
        (sequentialParamDouble maxDelta minDelta x))
  | _, _ => none

/-- The explicit tick values of the legend axis (`index.js:149`), on doubles. -/
def legendTickValues (data : List AnomalyRecord) : List ℚ :=
  match d3min (variances data), d3max (variances data) with
  | some minDelta, some maxDelta =>
      d3rangeDouble minDelta (addDouble maxDelta (stepOfGradeDouble minDelta maxDelta))
        (stepOfGradeDouble minDelta maxDelta)
  | _, _ => []

/-- The ticks of the legend axis (`index.js:148-150`), on doubles. -/
def legendTicks (ds : Dataset) : List Tick :=
  (legendTickValues ds.monthlyVariance).map (fun d =>
    { value := d
      offset := legendAxisScale ds.monthlyVariance d
      label := toFixed1 (addDouble ds.baseTemperature d) })

/-- Embedding of `renderLegend` (`index.js:123-160`). -/
def renderLegend {α : Type} (interpolateRdYlBu : ℚ → α) (ds : Dataset) (p : Plot α) :
    Plot α :=
  { p with
    groups := p.groups ++
      [{ id := "legend", translate := none },
       { id := "legend-x-axis",
         translate := some (plotPadding, plotHeight - plotPadding + cellSize) }]
    legend := p.legend ++ legendRects interpolateRdYlBu ds.monthlyVariance }

/-- What a run leaves behind: the picture and the errors written to the console. -/
structure Outcome (α : Type) where
  plot : Plot α
  console : List JsError

/-- Embedding of the top level (`index.js:162-171`) once the fetch has delivered `ds`:
`setPlotSize`, then `renderHeatMap` and `renderLegend` inside the `then` callback, whose
exception the `catch` callback logs. -/
def main {α : Type} (interpolateRdYlBu : ℚ → α) (ds : Dataset) : Outcome α :=
  let p0 := setPlotSize (Plot.empty α)
  match renderHeatMap interpolateRdYlBu ds p0 with
  | .ok p1 => { plot := renderLegend interpolateRdYlBu ds p1, console := [] }
  | .error e => { plot := p0, console := [e] }

/-! ## Sample datasets -/

/-- Two records of consecutive years, variances `-2` and `3`. -/
def sampleData : List AnomalyRecord :=
  [{ year := 2000, month := 1, variance := -2 }, { year := 2001, month := 1, variance := 3 }]

/-- Three records sharing the variance `1/2`. -/
def flatData : List AnomalyRecord :=
  [{ year := 2000, month := 1, variance := 1 / 2 },
   { year := 2000, month := 2, variance := 1 / 2 },
   { year := 2001, month := 1, variance := 1 / 2 }]

/-- Two records whose variances, `-1` and `1`, lie on both sides of zero. -/
def straddleData : List AnomalyRecord :=
  [{ year := 2000, month := 1, variance := -1 }, { year := 2000, month := 2, variance := 1 }]

/-- The dataset of base temperature `8` over `straddleData`. -/
def straddleDataset : Dataset := { baseTemperature := 8, monthlyVariance := straddleData }

/-- Two records whose variances, `1` and `8`, are both positive. -/
def positiveData : List AnomalyRecord :=
  [{ year := 2000, month := 1, variance := 1 }, { year := 2000, month := 2, variance := 8 }]

/-- Two records whose variances, `-3` and `-1`, are both negative. -/
def negativeData : List AnomalyRecord :=
  [{ year := 2000, month := 1, variance := -3 }, { year := 2000, month := 2, variance := -1 }]

/-- A January record, as the first one of the fetched dataset; its variance is the double
nearest to `-1.366`. -/
def januaryRecord : AnomalyRecord :=
  { year := 1753, month := 1, variance := binary64 (-1366 / 1000) }

/-- A December record. -/
def decemberRecord : AnomalyRecord := { year := 1753, month := 12, variance := -1 / 2 }

/-! ## Facts about the d3 helpers -/

theorem d3min_cons (x : ℚ) (xs : List ℚ) : d3min (x :: xs) = some (xs.foldl min x) := by
  unfold d3min
  simp only [List.foldl_cons]
  generalize x = m
  induction xs generalizing m with
  | nil => rfl
  | cons y ys ih =>
    simp only [List.foldl_cons]
    by_cases h : y < m
    · rw [if_pos h, ih, min_eq_right h.le]
    · rw [if_neg h, ih, min_eq_left (not_lt.mp h)]

theorem d3max_cons (x : ℚ) (xs : List ℚ) : d3max (x :: xs) = some (xs.foldl max x) := by
  unfold d3max
  simp only [List.foldl_cons]
  generalize x = m
  induction xs generalizing m with
  | nil => rfl
  | cons y ys ih =>
    simp only [List.foldl_cons]
    by_cases h : m < y
    · rw [if_pos h, ih, max_eq_right h.le]
    · rw [if_neg h, ih, max_eq_left (not_lt.mp h)]

theorem foldl_min_le (xs : List ℚ) (m : ℚ) :
    xs.foldl min m ≤ m ∧ ∀ x ∈ xs, xs.foldl min m ≤ x := by
  induction xs generalizing m with
  | nil => simp
  | cons y ys ih =>
    simp only [List.foldl_cons, List.mem_cons, forall_eq_or_imp]
    obtain ⟨h1, h2⟩ := ih (min m y)
    exact ⟨h1.trans (min_le_left _ _), h1.trans (min_le_right _ _), h2⟩

theorem le_foldl_max (xs : List ℚ) (m : ℚ) :
    m ≤ xs.foldl max m ∧ ∀ x ∈ xs, x ≤ xs.foldl max m := by
  induction xs generalizing m with
  | nil => simp
  | cons y ys ih =>
    simp only [List.foldl_cons, List.mem_cons, forall_eq_or_imp]
    obtain ⟨h1, h2⟩ := ih (max m y)
    exact ⟨(le_max_left _ _).trans h1, (le_max_right _ _).trans h1, h2⟩

/-- The value `d3min` returns is a lower bound of the list. -/
theorem d3min_le {xs : List ℚ} {lo : ℚ} (h : d3min xs = some lo) : ∀ x ∈ xs, lo ≤ x := by
  cases xs with
  | nil => simp [d3min] at h
  | cons y ys =>
    rw [d3min_cons] at h
    obtain rfl := Option.some.inj h
    intro x hx
    rcases List.mem_cons.mp hx with rfl | hx
    · exact (foldl_min_le ys x).1
    · exact (foldl_min_le ys y).2 x hx

/-- The value `d3max` returns is an upper bound of the list. -/
theorem le_d3max {xs : List ℚ} {hi : ℚ} (h : d3max xs = some hi) : ∀ x ∈ xs, x ≤ hi := by
  cases xs with
  | nil => simp [d3max] at h
  | cons y ys =>
    rw [d3max_cons] at h
    obtain rfl := Option.some.inj h
    intro x hx
    rcases List.mem_cons.mp hx with rfl | hx
    · exact (le_foldl_max ys x).1
    · exact (le_foldl_max ys y).2 x hx

/-- On one list the minimum never exceeds the maximum. -/
theorem d3min_le_d3max {xs : List ℚ} {lo hi : ℚ} (hmin : d3min xs = some lo)
    (hmax : d3max xs = some hi) : lo ≤ hi := by
  cases xs with
  | nil => simp [d3min] at hmin
  | cons y ys =>
    exact (d3min_le hmin y (List.mem_cons_self _ _)).trans
      (le_d3max hmax y (List.mem_cons_self _ _))

theorem foldl_min_const (xs : List ℚ) (c : ℚ) (h : ∀ x ∈ xs, x = c) : xs.foldl min c = c := by
  induction xs with
  | nil => rfl
  | cons y ys ih =>
    simp only [List.mem_cons, forall_eq_or_imp] at h
    simp only [List.foldl_cons, h.1, min_self]
    exact ih h.2

theorem foldl_max_const (xs : List ℚ) (c : ℚ) (h : ∀ x ∈ xs, x = c) : xs.foldl max c = c := by
  induction xs with
  | nil => rfl
  | cons y ys ih =>
    simp only [List.mem_cons, forall_eq_or_imp] at h
    simp only [List.foldl_cons, h.1, max_self]
    exact ih h.2

/-- The halving count is the integer binary logarithm. -/
theorem floorLog2_eq (n : ℕ) : floorLog2 n = Nat.log2 n := by
  unfold floorLog2
  suffices h : ∀ fuel n, n ≤ fuel → floorLog2Aux fuel n = Nat.log2 n from h n n le_rfl
  intro fuel
  induction fuel with
  | zero =>
    intro n hn
    obtain rfl : n = 0 := by omega
    simp [floorLog2Aux, Nat.log2]
  | succ k ih =>
    intro n hn
    rw [floorLog2Aux, Nat.log2]
    by_cases h : n < 2
    · simp [h, Nat.not_le.mpr h]
    · have h2 : 2 ≤ n := by omega
      simp only [h, if_false, h2, if_true]
      rw [ih (n / 2) (by omega)]

/-- The doubles nearest to `0.1`, `0.45` and to the sum `1 + 0.45`, which lies below
`1.45`. -/
theorem binary64_samples :
    binary64 (1 / 10) = 3602879701896397 / 36028797018963968 ∧
    binary64 (45 / 100) = 8106479329266893 / 18014398509481984 ∧
    addDouble 1 (binary64 (45 / 100)) = 6530219459687219 / 4503599627370496 ∧
    addDouble 1 (binary64 (45 / 100)) < 145 / 100 ∧
    binary64 (2 ^ 53 + 1) = 2 ^ 53 ∧
    binary64 (2 ^ 53 + 3) = 2 ^ 53 + 4 := by
  refine ⟨by decide!, by decide!, by decide!, by decide!, by decide!, by decide!⟩

/-- The linear scale on an increasing domain, in closed form. -/
theorem scaleLinear_of_lt {d0 d1 : ℚ} (h : d0 < d1) (r0 r1 x : ℚ) :
    scaleLinear d0 d1 r0 r1 x = r0 + (x - d0) / (d1 - d0) * (r1 - r0) := by
  unfold scaleLinear normalize interpolateNumber
  rw [if_neg (not_lt.mpr h.le), if_neg (sub_ne_zero.mpr h.ne')]
  ring

/-- The count `d3range` produces when the quotient is the whole number `n`. -/
theorem d3range_of_quotient {start stop step : ℚ} (n : ℕ) (hstep : step ≠ 0)
    (hq : (stop - start) / step = n) :
    d3range start stop step = (List.range n).map (fun (i : ℕ) => start + (i : ℚ) * step) := by
  unfold d3range
  rw [if_neg hstep, hq]
  simp

/-- C9: `getYScale` is linear with `yScale(1) = plotPadding = 60` and
`yScale(13) = plotHeight - plotBottomPadding = 400`; one month step equals the cell
height `(plotHeight - plotPadding - plotBottomPadding) / 12` of `renderHeatMap`, so each
drawn cell ends exactly where the row of the next month starts. -/
theorem getYScale_rows_tile :
    getYScale 1 = plotPadding ∧ plotPadding = 60 ∧
    getYScale 13 = plotHeight - plotBottomPadding ∧ plotHeight - plotBottomPadding = 400 ∧
    cellHeight = (plotHeight - plotPadding - plotBottomPadding) / 12 ∧
    (∀ m : ℚ, getYScale m = plotPadding + (m - 1) * cellHeight) ∧
    (∀ m : ℚ, getYScale (m + 1) - getYScale m = cellHeight) ∧
    (∀ (α : Type) (base : ℚ) (xScale : ℚ → ℚ) (colorScale : ℚ → Option α)
        (r : AnomalyRecord),
      (cellOf base xScale getYScale colorScale r).y
          + (cellOf base xScale getYScale colorScale r).height
        = getYScale ((r.month : ℚ) + 1)) := by
  have hlin : ∀ m : ℚ, getYScale m = plotPadding + (m - 1) * cellHeight := by
    intro m
    unfold getYScale
    rw [scaleLinear_of_lt (by norm_num)]
    simp only [plotPadding, plotHeight, plotBottomPadding, cellHeight]
    ring
  refine ⟨?_, rfl, ?_, ?_, rfl, hlin, ?_, ?_⟩
  · rw [hlin]; ring
  · rw [hlin]; simp only [plotPadding, plotHeight, plotBottomPadding, cellHeight]; norm_num
  · simp only [plotHeight, plotBottomPadding]; norm_num
  · intro m; rw [hlin, hlin]; ring
  · intro α base xScale colorScale r
    simp only [cellOf]
    rw [hlin, hlin]; ring

/-- The first record bounds the years of a dataset sorted by year from below, the last
one from above. -/
theorem year_bounds_of_sorted {data : List AnomalyRecord} {first last : AnomalyRecord}
    (hfirst : data.head? = some first) (hlast : data.getLast? = some last)
    (hsorted : data.Pairwise (fun a b => a.year ≤ b.year)) :
    ∀ r ∈ data, first.year ≤ r.year ∧ r.year ≤ last.year := by
  cases data with
  | nil => simp at hfirst
  | cons f rest =>
    have hne : f :: rest ≠ [] := List.cons_ne_nil _ _
    obtain rfl : f = first := by simpa using hfirst
    have hl : (f :: rest).getLast hne = last := by
      rw [List.getLast?_eq_getLast _ hne] at hlast
      exact Option.some.inj hlast
    intro r hr
    constructor
    · rcases List.mem_cons.mp hr with rfl | hr
      · exact le_refl _
      · exact (List.pairwise_cons.mp hsorted).1 r hr
    · have hsplit : (f :: rest).dropLast ++ [last] = f :: rest := by
        rw [← hl]; exact List.dropLast_append_getLast hne
      rw [← hsplit] at hr hsorted
      rcases List.mem_append.mp hr with hr | hr
      · exact (List.pairwise_append.mp hsorted).2.2 r hr last (List.mem_singleton_self _)
      · rw [List.mem_singleton.mp hr]

/-- C8: for a non-empty dataset whose first year does not exceed its last year,
`getXScale` returns a scale that sends the first year to `plotPadding = 60` and the year
after the last one to `plotWidth - plotPadding = 940` and is monotonically
non-decreasing; when the dataset is ordered by year, every record gets an x in
`[60, 940)`. -/
theorem getXScale_monotone (data : List AnomalyRecord) (first last : AnomalyRecord)
    (hfirst : data.head? = some first) (hlast : data.getLast? = some last)
    (hfl : first.year ≤ last.year) :
    ∃ xScale : ℚ → ℚ,
      getXScale data = .ok xScale ∧
      xScale (first.year : ℚ) = plotPadding ∧ plotPadding = 60 ∧
      xScale ((last.year : ℚ) + 1) = plotWidth - plotPadding ∧
      plotWidth - plotPadding = 940 ∧
      (∀ a b : ℚ, a ≤ b → xScale a ≤ xScale b) ∧
      (data.Pairwise (fun a b => a.year ≤ b.year) →
        ∀ r ∈ data, 60 ≤ xScale (r.year : ℚ) ∧ xScale (r.year : ℚ) < 940) := by
  have hdom : (first.year : ℚ) < (last.year : ℚ) + 1 := by
    have : (first.year : ℚ) ≤ (last.year : ℚ) := by exact_mod_cast hfl
    linarith
  have hpos : (0 : ℚ) < (last.year : ℚ) + 1 - (first.year : ℚ) := by linarith
  have hget : getXScale data =
      .ok (scaleLinear (first.year : ℚ) ((last.year : ℚ) + 1) plotPadding
        (plotWidth - plotPadding)) := by
    have h0 : yearAt data 0 = .ok first.year := by
      unfold yearAt
      rw [← List.head?_eq_getElem?, hfirst]
    have h1 : yearAt data (data.length - 1) = .ok last.year := by
      unfold yearAt
      rw [← List.getLast?_eq_getElem?, hlast]
    unfold getXScale
    rw [h0, h1]
    rfl
  have hform : ∀ x : ℚ,
      scaleLinear (first.year : ℚ) ((last.year : ℚ) + 1) plotPadding (plotWidth - plotPadding) x
        = 60 + (x - first.year) / ((last.year : ℚ) + 1 - first.year) * 880 := by
    intro x
    rw [scaleLinear_of_lt hdom]
    simp only [plotPadding, plotWidth]
    norm_num
  refine ⟨_, hget, ?_, rfl, ?_, ?_, ?_, ?_⟩
  · rw [hform]; simp [plotPadding]
  · rw [hform, div_self hpos.ne']; simp only [plotPadding, plotWidth]; norm_num
  · simp only [plotPadding, plotWidth]; norm_num
  · intro a b hab
    rw [hform, hform]
    have : (a - first.year) / ((last.year : ℚ) + 1 - first.year)
        ≤ (b - first.year) / ((last.year : ℚ) + 1 - first.year) :=
      div_le_div_of_nonneg_right (by linarith) hpos.le
    linarith
  · intro hsorted r hr
    obtain ⟨hlo, hhi⟩ := year_bounds_of_sorted hfirst hlast hsorted r hr
    have h1 : (first.year : ℚ) ≤ (r.year : ℚ) := by exact_mod_cast hlo
    have h2 : (r.year : ℚ) ≤ (last.year : ℚ) := by exact_mod_cast hhi
    rw [hform]
    have hge : 0 ≤ ((r.year : ℚ) - first.year) / ((last.year : ℚ) + 1 - first.year) :=
      div_nonneg (by linarith) hpos.le
    have hlt : ((r.year : ℚ) - first.year) / ((last.year : ℚ) + 1 - first.year) < 1 := by
      rw [div_lt_one hpos]; linarith
    constructor <;> linarith

/-- Witness of C8 on the two-year dataset `sampleData` (years 2000 and 2001), which also
meets the ordering premise of the last part. -/
theorem getXScale_monotone_witness :
    (sampleData.head? = some { year := 2000, month := 1, variance := -2 } ∧
      sampleData.getLast? = some { year := 2001, month := 1, variance := 3 } ∧
      (2000 : ℤ) ≤ 2001 ∧ sampleData.Pairwise (fun a b => a.year ≤ b.year)) ∧
    (∃ xScale : ℚ → ℚ,
      getXScale sampleData = .ok xScale ∧
      xScale ((2000 : ℤ) : ℚ) = plotPadding ∧ plotPadding = 60 ∧
      xScale (((2001 : ℤ) : ℚ) + 1) = plotWidth - plotPadding ∧
      plotWidth - plotPadding = 940 ∧
      (∀ a b : ℚ, a ≤ b → xScale a ≤ xScale b) ∧
      (sampleData.Pairwise (fun a b => a.year ≤ b.year) →
        ∀ r ∈ sampleData, 60 ≤ xScale (r.year : ℚ) ∧ xScale (r.year : ℚ) < 940)) :=
  ⟨⟨rfl, rfl, by decide, by decide⟩,
   getXScale_monotone sampleData { year := 2000, month := 1, variance := -2 }
     { year := 2001, month := 1, variance := 3 } rfl rfl (by decide)⟩

/-- C7: on an empty `monthlyVariance` `getXScale` throws a `TypeError`, so
`renderHeatMap` fails before it draws anything, `renderLegend` is not run (the picture
holds no cell, no axis group and no legend swatch) and the error reaches the console;
on every non-empty sequence `getXScale` returns a scale. -/
theorem empty_dataset_raises :
    (∃ msg, getXScale [] = .error (.typeError msg)) ∧
    (∀ (α : Type) (interp : ℚ → α) (base : ℚ) (p : Plot α),
      ∃ msg, renderHeatMap interp { baseTemperature := base, monthlyVariance := [] } p
        = .error (.typeError msg)) ∧
    (∀ (α : Type) (interp : ℚ → α) (base : ℚ),
      (∃ msg, (main interp { baseTemperature := base, monthlyVariance := [] }).console
        = [.typeError msg]) ∧
      (main interp { baseTemperature := base, monthlyVariance := [] }).plot.cells = [] ∧
      (main interp { baseTemperature := base, monthlyVariance := [] }).plot.groups = [] ∧
      (main interp { baseTemperature := base, monthlyVariance := [] }).plot.legend = []) ∧
    (∀ (r : AnomalyRecord) (rest : List AnomalyRecord),
      ∃ xScale, getXScale (r :: rest) = .ok xScale) := by
  refine ⟨⟨_, rfl⟩, fun α interp base p => ⟨_, rfl⟩, fun α interp base => ?_, ?_⟩
  · exact ⟨⟨_, rfl⟩, rfl, rfl, rfl⟩
  · intro r rest
    have h0 : yearAt (r :: rest) 0 = .ok r.year := by simp [yearAt]
    have h1 : yearAt (r :: rest) ((r :: rest).length - 1)
        = .ok ((r :: rest).getLast (List.cons_ne_nil _ _)).year := by
      unfold yearAt
      have : (r :: rest)[(r :: rest).length - 1]?
          = some ((r :: rest).getLast (List.cons_ne_nil _ _)) := by
        rw [← List.getLast?_eq_getElem?, List.getLast?_eq_getLast _ (List.cons_ne_nil _ _)]
      rw [this]
    have hget : getXScale (r :: rest) =
        .ok (scaleLinear (r.year : ℚ)
          ((((r :: rest).getLast (List.cons_ne_nil _ _)).year : ℚ) + 1) plotPadding
          (plotWidth - plotPadding)) := by
      unfold getXScale
      rw [h0, h1]
      rfl
    exact ⟨_, hget⟩

/-- C6: when all variances of a non-empty dataset are equal, the colour scale of
`getColorScale` is defined at every input and always returns the palette midpoint
`interpolateRdYlBu(0.5)`. -/
theorem getColorScale_constant_midpoint {α : Type} (interp : ℚ → α)
    (data : List AnomalyRecord) (c : ℚ) (hne : data ≠ [])
    (hall : ∀ r ∈ data, r.variance = c) :
    ∀ x : ℚ, getColorScale interp data x = some (interp (1 / 2)) := by
  obtain ⟨r, rest, rfl⟩ := List.exists_cons_of_ne_nil hne
  have hc : r.variance = c := hall r (List.mem_cons_self _ _)
  have hrest : ∀ x ∈ variances rest, x = r.variance := by
    intro x hx
    obtain ⟨s, hs, rfl⟩ := List.mem_map.mp hx
    rw [hc]
    exact hall s (List.mem_cons_of_mem _ hs)
  have hmin : d3min (variances (r :: rest)) = some r.variance := by
    show d3min (r.variance :: variances rest) = _
    rw [d3min_cons, foldl_min_const _ _ hrest]
  have hmax : d3max (variances (r :: rest)) = some r.variance := by
    show d3max (r.variance :: variances rest) = _
    rw [d3max_cons, foldl_max_const _ _ hrest]
  intro x
  simp only [getColorScale, scaleSequential, sequentialParam, hmin, hmax, if_true,
    Option.map_some']

/-- Witness of C6 on three records of variance `1/2`, the palette being the identity. -/
theorem getColorScale_constant_midpoint_witness :
    (flatData ≠ [] ∧ ∀ r ∈ flatData, r.variance = 1 / 2) ∧
    ∀ x : ℚ, getColorScale id flatData x = some (id (1 / 2)) :=
  ⟨⟨by decide, by simp [flatData]⟩,
   getColorScale_constant_midpoint id flatData (1 / 2) (by decide) (by simp [flatData])⟩

/-- C5: with `minVariance < maxVariance` the colour scale hands the palette the
parameter `t(v) = (maxVariance - v) / (maxVariance - minVariance)`; `t` is `0` at the
maximum, `1` at the minimum and strictly decreasing. -/
theorem getColorScale_parameter {α : Type} (interp : ℚ → α) (data : List AnomalyRecord)
    (lo hi : ℚ) (hmin : d3min (variances data) = some lo)
    (hmax : d3max (variances data) = some hi) (hlt : lo < hi) :
    (∀ v : ℚ, getColorScale interp data v = some (interp ((hi - v) / (hi - lo)))) ∧
    getColorScale interp data hi = some (interp 0) ∧
    getColorScale interp data lo = some (interp 1) ∧
    (∀ v w : ℚ, v < w → (hi - w) / (hi - lo) < (hi - v) / (hi - lo)) := by
  have hpos : 0 < hi - lo := sub_pos.mpr hlt
  have hparam : ∀ v : ℚ, getColorScale interp data v = some (interp ((hi - v) / (hi - lo))) := by
    intro v
    simp only [getColorScale, scaleSequential, sequentialParam, hmin, hmax, if_neg hlt.ne',
      Option.map_some']
    congr 2
    have hne : lo - hi ≠ 0 := sub_ne_zero.mpr hlt.ne
    have hne2 : hi - lo ≠ 0 := hpos.ne'
    field_simp
    ring
  refine ⟨hparam, ?_, ?_, ?_⟩
  · rw [hparam, sub_self, zero_div]
  · rw [hparam, div_self hpos.ne']
  · intro v w hvw
    exact div_lt_div_of_pos_right (by linarith) hpos

/-- Witness of C5 on the variances `-2` and `3`, the palette being the identity. -/
theorem getColorScale_parameter_witness :
    (d3min (variances sampleData) = some (-2) ∧ d3max (variances sampleData) = some 3 ∧
      (-2 : ℚ) < 3) ∧
    ((∀ v : ℚ, getColorScale id sampleData v = some (id ((3 - v) / (3 - (-2))))) ∧
     getColorScale id sampleData 3 = some (id 0) ∧
     getColorScale id sampleData (-2) = some (id 1) ∧
     (∀ v w : ℚ, v < w → (3 - w) / (3 - (-2)) < (3 - v) / (3 - (-2)))) :=
  ⟨⟨by norm_num [d3min, variances, sampleData], by norm_num [d3max, variances, sampleData],
    by norm_num⟩,
   getColorScale_parameter id sampleData (-2) 3 (by norm_num [d3min, variances, sampleData])
     (by norm_num [d3max, variances, sampleData]) (by norm_num)⟩

theorem stepOfGrade_of_nonpos {lo : ℚ} (h0 : lo ≤ 0) (hi : ℚ) :
    stepOfGrade lo hi = (hi - lo) / 9 := by
  unfold stepOfGrade cellsCount
  rw [abs_of_nonpos h0]
  ring

/-- The swatch abscissas depend on the number of grades only. -/
theorem legendRects_x {α : Type} (interp : ℚ → α) (data : List AnomalyRecord) :
    (legendRects interp data).map (fun r => r.x)
      = (List.range (legendGrades data).length).map
          (fun (i : ℕ) => plotPadding + cellSize * (i : ℚ)) := by
  unfold legendRects
  rw [List.map_map, List.enum_eq_zip_range]
  apply List.ext_getElem
  · simp
  · intro n h1 h2
    simp

/-- The grades when `minVariance <= 0` and `minVariance < maxVariance`, in closed form. -/
theorem legendGrades_of_nonpos_min (data : List AnomalyRecord) (lo hi : ℚ)
    (hmin : d3min (variances data) = some lo) (hmax : d3max (variances data) = some hi)
    (h0 : lo ≤ 0) (hlt : lo < hi) :
    legendGrades data
      = (List.range 9).map (fun (i : ℕ) => lo + (i : ℚ) * ((hi - lo) / 9)) := by
  have hpos : 0 < hi - lo := sub_pos.mpr hlt
  simp only [legendGrades, hmin, hmax, stepOfGrade_of_nonpos h0 hi]
  apply d3range_of_quotient 9 (by positivity)
  field_simp

/-- C2: when `minVariance <= 0 <= maxVariance` and `minVariance < maxVariance`, the
legend grades are the 9 values `minVariance + i * step`, `i = 0..8`, with
`step = (maxVariance - minVariance) / 9`: the first is `minVariance`, all are strictly
below `maxVariance`, and the last bucket ends at `maxVariance`. -/
theorem legendGrades_thresholds (data : List AnomalyRecord) (lo hi : ℚ)
    (hmin : d3min (variances data) = some lo) (hmax : d3max (variances data) = some hi)
    (h0 : lo ≤ 0) (h1 : 0 ≤ hi) (hlt : lo < hi) :
    stepOfGrade lo hi = (hi - lo) / 9 ∧
    legendGrades data
      = (List.range 9).map (fun (i : ℕ) => lo + (i : ℚ) * ((hi - lo) / 9)) ∧
    (legendGrades data).length = 9 ∧
    (legendGrades data).head? = some lo ∧
    (∀ g ∈ legendGrades data, g < hi) ∧
    (legendGrades data).getLast? = some (lo + 8 * ((hi - lo) / 9)) ∧
    lo + 8 * ((hi - lo) / 9) + stepOfGrade lo hi = hi := by
  have hpos : 0 < hi - lo := sub_pos.mpr hlt
  have hstep : stepOfGrade lo hi = (hi - lo) / 9 := stepOfGrade_of_nonpos h0 hi
  have hgr : legendGrades data
      = (List.range 9).map (fun (i : ℕ) => lo + (i : ℚ) * ((hi - lo) / 9)) :=
    legendGrades_of_nonpos_min data lo hi hmin hmax h0 hlt
  refine ⟨hstep, hgr, ?_, ?_, ?_, ?_, ?_⟩
  · rw [hgr]; simp
  · rw [hgr]; simp [List.range_succ_eq_map]
  · rw [hgr]
    intro g hg
    obtain ⟨i, hi9, rfl⟩ := List.mem_map.mp hg
    have hi8 : (i : ℚ) ≤ 8 := by
      have : i ≤ 8 := Nat.lt_succ_iff.mp (List.mem_range.mp hi9)
      exact_mod_cast this
    nlinarith
  · rw [hgr]; simp [List.range_succ]
  · rw [hstep]; ring

/-- Witness of C2 on the variances `-2` and `3` (step `5/9`). -/
theorem legendGrades_thresholds_witness :
    (d3min (variances sampleData) = some (-2) ∧ d3max (variances sampleData) = some 3 ∧
      (-2 : ℚ) ≤ 0 ∧ (0 : ℚ) ≤ 3 ∧ (-2 : ℚ) < 3) ∧
    (stepOfGrade (-2) 3 = (3 - (-2)) / 9 ∧
     legendGrades sampleData
       = (List.range 9).map (fun (i : ℕ) => (-2 : ℚ) + (i : ℚ) * ((3 - (-2)) / 9)) ∧
     (legendGrades sampleData).length = 9 ∧
     (legendGrades sampleData).head? = some (-2) ∧
     (∀ g ∈ legendGrades sampleData, g < 3) ∧
     (legendGrades sampleData).getLast? = some (-2 + 8 * ((3 - (-2)) / 9)) ∧
     (-2 : ℚ) + 8 * ((3 - (-2)) / 9) + stepOfGrade (-2) 3 = 3) :=
  ⟨⟨by norm_num [d3min, variances, sampleData], by norm_num [d3max, variances, sampleData],
    by norm_num, by norm_num, by norm_num⟩,
   legendGrades_thresholds sampleData (-2) 3 (by norm_num [d3min, variances, sampleData])
     (by norm_num [d3max, variances, sampleData]) (by norm_num) (by norm_num) (by norm_num)⟩

/-- C3 (evaluation at a failing input): for the variances `-1` and `1`, which satisfy
`minVariance <= 0 <= maxVariance` and `minVariance < maxVariance`, the doubles give the
step `0.2222222222222222`, the stop `1.2222222222222223` and the quotient
`10.000000000000002`, whose ceiling is 11, so the legend axis has 11 tick values and
not 10.  The tenth is `maxVariance` at offset 225, the right edge of the last of the 9
swatches; the eleventh, `1.2222222222222223`, is drawn at offset 250, past the legend,
with the label `9.2`.  In exact arithmetic the same `range` call has 10 values. -/
theorem legendTicks_eleven_on_doubles {α : Type} (interp : ℚ → α) :
    d3min (variances straddleData) = some (-1) ∧
    d3max (variances straddleData) = some 1 ∧
    stepOfGradeDouble (-1) 1 = 2001599834386887 / 9007199254740992 ∧
    addDouble 1 (stepOfGradeDouble (-1) 1) = 1376099886140985 / 1125899906842624 ∧
    divDouble (subDouble (addDouble 1 (stepOfGradeDouble (-1) 1)) (-1))
        (stepOfGradeDouble (-1) 1)
      = 5629499534213121 / 562949953421312 ∧
    legendTickValues straddleData
      = [-1, -7005599420354105 / 9007199254740992, -2501999792983609 / 4503599627370496,
         -3002399751580331 / 9007199254740992, -250199979298361 / 2251799813685248,
         250199979298361 / 2251799813685248, 1501199875790165 / 4503599627370496,
         312749974122951 / 562949953421312, 875699927544263 / 1125899906842624, 1,
         1376099886140985 / 1125899906842624] ∧
    (legendTickValues straddleData).length = 11 ∧
    (legendTicks straddleDataset).map (fun t => t.offset)
      = [some 0, some (7036874417766403 / 281474976710656), some 50,
         some (5277655813324799 / 70368744177664), some 100, some 125, some 150,
         some (6157265115545599 / 35184372088832), some 200, some 225, some 250] ∧
    (legendTicks straddleDataset).map (fun t => t.label)
      = ["7.0", "7.2", "7.4", "7.7", "7.9", "8.1", "8.3", "8.6", "8.8", "9.0", "9.2"] ∧
    (legendRects interp straddleData).map (fun r => r.x)
      = [60, 85, 110, 135, 160, 185, 210, 235, 260] ∧
    (renderLegend interp straddleDataset (Plot.empty α)).groups
      = [{ id := "legend", translate := none },
         { id := "legend-x-axis", translate := some (60, 465) }] ∧
    (d3range (-1) (1 + stepOfGrade (-1) 1) (stepOfGrade (-1) 1)).length = 10 := by
  have hmin : d3min (variances straddleData) = some (-1) := by decide!
  have hmax : d3max (variances straddleData) = some 1 := by decide!
  have hvals : legendTickValues straddleData
      = [-1, -7005599420354105 / 9007199254740992, -2501999792983609 / 4503599627370496,
         -3002399751580331 / 9007199254740992, -250199979298361 / 2251799813685248,
         250199979298361 / 2251799813685248, 1501199875790165 / 4503599627370496,
         312749974122951 / 562949953421312, 875699927544263 / 1125899906842624, 1,
         1376099886140985 / 1125899906842624] := by decide!
  refine ⟨hmin, hmax, by decide!, by decide!, by decide!, hvals, ?_, by decide!, by decide!,
    ?_, ?_, by decide!⟩
  · rw [hvals]; rfl
  · rw [legendRects_x,
      legendGrades_of_nonpos_min straddleData (-1) 1 hmin hmax (by norm_num) (by norm_num)]
    norm_num [List.range_succ, plotPadding, cellSize]
  · simp only [renderLegend, Plot.empty, List.nil_append, plotPadding, plotHeight, cellSize]
    norm_num

/-- C1 (evaluation at a failing input): for the all-positive variances `1` and `8` the
step is `(|1| + 8) / 9 = 1`, so `grades = range(1, 8, 1)` has 7 elements and
`renderLegend` appends 7 swatches, at `x = 60 + 25 * i` for `i = 0..6`, not 9. -/
theorem legendRects_positive_data_seven {α : Type} (interp : ℚ → α) (base : ℚ) :
    d3min (variances positiveData) = some 1 ∧
    d3max (variances positiveData) = some 8 ∧
    stepOfGrade 1 8 = 1 ∧
    legendGrades positiveData = [1, 2, 3, 4, 5, 6, 7] ∧
    (legendRects interp positiveData).length = 7 ∧
    (legendRects interp positiveData).map (fun r => r.x) = [60, 85, 110, 135, 160, 185, 210] ∧
    (renderLegend interp { baseTemperature := base, monthlyVariance := positiveData }
      (Plot.empty α)).legend.length = 7 := by
  have hmin : d3min (variances positiveData) = some 1 := by
    norm_num [d3min, variances, positiveData]
  have hmax : d3max (variances positiveData) = some 8 := by
    norm_num [d3max, variances, positiveData]
  have hstep : stepOfGrade 1 8 = 1 := by norm_num [stepOfGrade, cellsCount]
  have hgr : legendGrades positiveData = [1, 2, 3, 4, 5, 6, 7] := by
    simp only [legendGrades, hmin, hmax, hstep]
    rw [d3range_of_quotient 7 (by norm_num) (by norm_num)]
    norm_num [List.range_succ]
  have hlen : (legendRects interp positiveData).length = 7 := by
    simp [legendRects, hgr]
  refine ⟨hmin, hmax, hstep, hgr, hlen, ?_, ?_⟩
  · rw [legendRects_x, hgr]
    norm_num [List.range_succ, plotPadding, cellSize]
  · simp [renderLegend, Plot.empty, hlen]

/-- C4 (evaluation at failing inputs): `handleMouseOver` passes the one-based record
month to `Date` as a zero-based index, so the tooltip of a January record (month `1`)
reads February and that of a December record (month `12`) reads January, whereas the
left-axis tick of the row the cell is drawn in (tick value `data-month = month - 1`)
reads January, respectively December. -/
theorem tooltip_month_off_by_one (clientX clientY base : ℚ) :
    (handleMouseOver clientX clientY januaryRecord base).monthName = "February" ∧
    (handleMouseOver clientX clientY decemberRecord base).monthName = "January" ∧
    yAxisTicks.map (fun t => t.label) = monthNames ∧
    yAxisTicks.map (fun t => t.value)
      = (List.range 12).map (fun (k : ℕ) => (k : ℚ)) ∧
    monthLong (januaryRecord.month - 1) = "January" ∧
    monthLong (decemberRecord.month - 1) = "December" ∧
    (∀ m : Fin 12, monthLong ((m : ℤ) + 1) ≠ monthLong ((m : ℤ) + 1 - 1)) := by
  have hjan : monthLong januaryRecord.month = "February" := by decide
  have hdec : monthLong decemberRecord.month = "January" := by decide
  refine ⟨hjan, hdec, by decide, ?_, by decide, by decide, by decide⟩
  simp [yAxisTicks]

/-- C10 (amended): the legend step `(|min| + max) / 9` equals `(max - min) / 9` exactly
when `min <= 0`; for all-positive variances it is strictly wider, for all-negative
variances the two agree, and it is never negative. -/
theorem stepOfGrade_eq_span_iff (data : List AnomalyRecord) (lo hi : ℚ)
    (hmin : d3min (variances data) = some lo) (hmax : d3max (variances data) = some hi) :
    (stepOfGrade lo hi = (hi - lo) / 9 ↔ lo ≤ 0) ∧
    (0 < lo → (hi - lo) / 9 < stepOfGrade lo hi) ∧
    (hi < 0 → stepOfGrade lo hi = (hi - lo) / 9) ∧
    0 ≤ stepOfGrade lo hi := by
  have hle : lo ≤ hi := d3min_le_d3max hmin hmax
  have hwide : 0 < lo → (hi - lo) / 9 < stepOfGrade lo hi := by
    intro hpos
    unfold stepOfGrade cellsCount
    rw [abs_of_pos hpos]
    linarith
  refine ⟨⟨?_, fun h => stepOfGrade_of_nonpos h hi⟩, hwide,
    fun h => stepOfGrade_of_nonpos (hle.trans h.le) hi, ?_⟩
  · intro heq
    by_contra hpos
    exact (hwide (not_le.mp hpos)).ne' heq
  · unfold stepOfGrade cellsCount
    have : 0 ≤ |lo| + hi := by
      have := neg_abs_le lo
      linarith
    positivity

/-- Witness of C10 (amended) on the all-positive variances `1` and `8`: the step `1`
is wider than `7/9`. -/
theorem stepOfGrade_eq_span_iff_witness :
    (d3min (variances positiveData) = some 1 ∧ d3max (variances positiveData) = some 8) ∧
    ((stepOfGrade 1 8 = (8 - 1) / 9 ↔ (1 : ℚ) ≤ 0) ∧
     ((0 : ℚ) < 1 → (8 - 1) / 9 < stepOfGrade 1 8) ∧
     ((8 : ℚ) < 0 → stepOfGrade 1 8 = (8 - 1) / 9) ∧
     0 ≤ stepOfGrade 1 8) ∧
    (8 - 1) / 9 < stepOfGrade 1 8 :=
  ⟨⟨by norm_num [d3min, variances, positiveData], by norm_num [d3max, variances, positiveData]⟩,
   stepOfGrade_eq_span_iff positiveData 1 8 (by norm_num [d3min, variances, positiveData])
     (by norm_num [d3max, variances, positiveData]),
   (stepOfGrade_eq_span_iff positiveData 1 8 (by norm_num [d3min, variances, positiveData])
     (by norm_num [d3max, variances, positiveData])).2.1 (by norm_num)⟩

/-- C10 (counterexample): the variances `-3` and `-1` are all negative, yet the computed
step `(|-3| + -1) / 9 = 2/9` equals `(max - min) / 9` and is positive. -/
theorem stepOfGrade_all_negative_agrees :
    d3min (variances negativeData) = some (-3) ∧
    d3max (variances negativeData) = some (-1) ∧
    (∀ r ∈ negativeData, r.variance < 0) ∧
    stepOfGrade (-3) (-1) = ((-1) - (-3)) / 9 ∧
    0 < stepOfGrade (-3) (-1) := by
  refine ⟨by norm_num [d3min, variances, negativeData],
    by norm_num [d3max, variances, negativeData], by norm_num [negativeData], ?_, ?_⟩ <;>
  norm_num [stepOfGrade, cellsCount]

end HeatMap
